import Mathlib

/-!
Verification of the ORF-JobMarket-Summary analytical engine (src/app.py).

The source is a Flask application over a pandas DataFrame.  We embed the
analytical core shallowly:

* a DataFrame row becomes an `Occupation` record; the parsed
  `Automatability_Analysis_Parsed` column becomes a `List Task`;
* pandas/NumPy floats are modelled by exact rationals (`ℚ`); the one place
  where NaN propagation matters (`Series.mean` on an empty series, claim C8)
  uses the explicit `PyFloat` type with a `nan` constructor;
* Python's `json.loads` is external to the repository; a raw task field
  carries its decoding outcome (`Option (List Task)`, `none` = the decoder
  raises), while the lexical checks the source performs on the raw string
  (`pd.notna`, `isinstance(x, str)`, `x.strip().startswith('[')`) are
  modelled on a genuine `String`;
* an HTTP 400 error response (`jsonify({'error': ...}), 400`) is modelled as
  `Except.error`; the "No data available" 500 branch guards the process-level
  lazy-load glue and is outside the analytical core.
-/

namespace JobMarket

/-- One entry of a parsed task's `question` field: the source keeps only
`isinstance(question, str)` elements, so we distinguish strings from
non-string junk. -/
inductive QEntry where
  | qstr (s : String)
  | qother
deriving DecidableEq, Repr

/-- The `question` field of a parsed task dict: absent key (pandas `NaN`,
removed by `dropna`), a non-list value (removed by the `isinstance(x, list)`
check), or an actual list of entries. -/
inductive QField where
  | missing
  | notlist
  | qlist (entries : List QEntry)
deriving DecidableEq, Repr

/-- One parsed task dict from `Automatability_Analysis_Parsed`.  Keys can be
absent from the raw JSON object; `dict.get` / DataFrame column access then
yield `None`/NaN, modelled by `none`. -/
structure Task where
  automatability_flag : Option String
  importance_classification : Option String
  question : QField
deriving DecidableEq, Repr

/-- One row of the loaded DataFrame after `load_job_data` succeeded:
`auto_score`/`manual_score` are numeric (rows failing coercion were dropped),
`levelVal i` is the row's `level_i_name` value (`none` = NaN), `sector` its
`Sector` value, `tasks` the parsed task list. -/
structure Occupation where
  auto_score : ℚ
  manual_score : ℚ
  levelVal : ℕ → Option String
  sector : Option String
  tasks : List Task

/-- The loaded dataset (`job_data`).  Column presence is a DataFrame-level
fact, so it lives here and not on the rows: `levelPresent i` models
`f'level_{i}_name' in job_data.columns`, `sectorPresent` models
`'Sector' in job_data.columns`. -/
structure Dataset where
  levelPresent : ℕ → Bool
  sectorPresent : Bool
  rows : List Occupation

/-! ### Raw input and `load_job_data` -/

/-- The raw `Automatability_Analysis` cell of one source row, before parsing.
`strval text decoded` is a string cell: `text` is the literal string (used by
the source's `x.strip().startswith('[')` check) and `decoded` is what
`json.loads(text)` would produce (`none` = `json.loads` raises). -/
inductive RawField where
  | missing
  | nonstring
  | strval (text : String) (decoded : Option (List Task))

/-- One raw source row.  `auto_score`/`manual_score` hold the result of
`pd.to_numeric(_, errors='coerce')` (`none` = NaN, the row is dropped). -/
structure RawRow where
  auto_score : Option ℚ
  manual_score : Option ℚ
  levelVal : ℕ → Option String
  sector : Option String
  task_field : RawField

/-- The raw workbook: column presence plus rows. -/
structure RawData where
  levelPresent : ℕ → Bool
  sectorPresent : Bool
  rows : List RawRow

/-- Python `str.strip()`: drop leading and trailing whitespace (viewed as a
character list). -/
def pyStrip (s : String) : List Char :=
  ((s.data.dropWhile Char.isWhitespace).reverse.dropWhile Char.isWhitespace).reverse

/-- The lexical guard of the task-cell parse:
`x.strip().startswith('[')`. -/
def looksLikeList (s : String) : Bool :=
  match pyStrip s with
  | c :: _ => c = '['
  | [] => false

/-- The per-cell task parse performed inside `load_job_data`:
`json.loads(x) if pd.notna(x) and isinstance(x, str) and
x.strip().startswith('[') else []`.  A decoding failure is a raised
exception, modelled as `Except.error`. -/
def parseTaskField : RawField → Except String (List Task)
  | .missing => .ok []
  | .nonstring => .ok []
  | .strval text decoded =>
      if looksLikeList text then
        match decoded with
        | some ts => .ok ts
        | none => .error "JSONDecodeError"
      else .ok []

/-- Whether parsing this cell raises (string cell that looks like a list but
fails to decode). -/
def decodeFails (f : RawField) : Bool :=
  match parseTaskField f with
  | .ok _ => false
  | .error _ => true

/-- A row survives `df.dropna(subset=['auto_score', 'manual_score'])`. -/
def keepRow (r : RawRow) : Bool :=
  r.auto_score.isSome && r.manual_score.isSome

/-- Build the `Occupation` for a kept row with parsed tasks `ts`. -/
def mkOcc (r : RawRow) (ts : List Task) : Occupation :=
  { auto_score := r.auto_score.getD 0
    manual_score := r.manual_score.getD 0
    levelVal := r.levelVal
    sector := r.sector
    tasks := ts }

/-- `df[...].apply(parse)` over the kept rows: the first raised
`JSONDecodeError` aborts the whole application (and so the whole load). -/
def traverseRows : List RawRow → Option (List Occupation)
  | [] => some []
  | r :: rs =>
      match parseTaskField r.task_field with
      | .error _ => none
      | .ok ts => (traverseRows rs).map (fun os => mkOcc r ts :: os)

/-- `load_job_data`: coerce scores, drop rows with a non-numeric score, parse
every kept row's task field.  `none` models the function returning `False`
after its `except Exception` handler caught an error (a `LoadError`). -/
def load_job_data (raw : RawData) : Option Dataset :=
  match traverseRows (raw.rows.filter keepRow) with
  | some occs => some ⟨raw.levelPresent, raw.sectorPresent, occs⟩
  | none => none

/-! ### The shared taxonomy filter -/

/-- Python truthiness of `request.args.get('category')`: `None` and the empty
string are falsy. -/
def isTruthy : Option String → Bool
  | none => false
  | some s => !s.isEmpty

/-- The filter block repeated verbatim in `get_jobs`, `get_automation_matrix`,
`get_task_analysis` and `get_risk_distribution`:

```
filtered_data = job_data
if category:
    level_column = f'level_{level}_name'
    if level_column in job_data.columns:
        filtered_data = job_data[job_data[level_column] == category]
```

Note the inner membership test fails silently: when the level column is
absent the filter is skipped and the whole dataset is used. -/
def filterByCategory (d : Dataset) (level : ℕ) (category : Option String) :
    List Occupation :=
  if isTruthy category then
    if d.levelPresent level then
      d.rows.filter (fun o => decide (o.levelVal level = category))
    else d.rows
  else d.rows

/-! ### Counter and ranking helpers (`collections.Counter`, `sorted`) -/

/-- First-occurrence deduplication: the key order of a Python dict/`Counter`
built by successive insertion. -/
def firstDedup : List String → List String
  | [] => []
  | x :: xs => x :: (firstDedup xs).filter (fun y => decide (y ≠ x))

/-- `collections.Counter(l)` as an association list in insertion order. -/
def counterOf (l : List String) : List (String × ℕ) :=
  (firstDedup l).map (fun k => (k, l.count k))

/-- `counter.get(k, 0)` / `type_counts.get(k, 0)`. -/
def getCount (c : List (String × ℕ)) (k : String) : ℕ :=
  match c.find? (fun kv => decide (kv.1 = k)) with
  | some kv => kv.2
  | none => 0

/-- Sum of the counts of an association list. -/
def sumCounts (c : List (String × ℕ)) : ℕ :=
  (c.map (fun kv => kv.2)).sum

/-- "count of `a` at least count of `b`": the comparison underlying
`sorted(..., key=itemgetter(1), reverse=True)` / `Counter.most_common`. -/
def countGE (a b : String × ℕ) : Prop := b.2 ≤ a.2

instance : DecidableRel countGE := fun a b => Nat.decLe b.2 a.2

instance : IsTotal (String × ℕ) countGE := ⟨fun a b => Nat.le_total b.2 a.2⟩

instance : IsTrans (String × ℕ) countGE :=
  ⟨fun _ _ _ h1 h2 => Nat.le_trans h2 h1⟩

/-- `Counter.most_common(n)`: stable sort by count descending, first `n`
entries (insertion sort is stable, like Python's `sorted`). -/
def mostCommon (n : ℕ) (c : List (String × ℕ)) : List (String × ℕ) :=
  (List.insertionSort countGE c).take n

/-! ### String normalization (`q.replace('_', ' ').title()`) -/

/-- `str.lower()` (character-wise, as Python does for ASCII data). -/
def pyLower (s : String) : String :=
  ⟨s.data.map Char.toLower⟩

/-- `str.replace('_', ' ')`. -/
def underscoreToSpace (s : String) : String :=
  ⟨s.data.map (fun c => if c = '_' then ' ' else c)⟩

/-- `str.title()`: a letter is uppercased when the previous character is not
a letter, lowercased otherwise (ASCII view, which is all the source data
uses). -/
def pyTitleAux : Bool → List Char → List Char
  | _, [] => []
  | prevAlpha, c :: cs =>
      (if prevAlpha then c.toLower else c.toUpper) :: pyTitleAux c.isAlpha cs

/-- Python `str.title()` on the whole string. -/
def pyTitle (s : String) : String := ⟨pyTitleAux false s.data⟩

/-- The per-question cleanup in `extract_questions_fast`:
`q.replace('_', ' ').title()`. -/
def normalizeQuestion (q : String) : String := pyTitle (underscoreToSpace q)

/-! ### Rounding (`round(x, 1)`) -/

/-- Python 3 `round` to an integer: round half to even. -/
def roundHalfEven (x : ℚ) : ℤ :=
  let f := x.floor
  let r := x - (f : ℚ)
  if r < 1 / 2 then f
  else if 1 / 2 < r then f + 1
  else if f % 2 = 0 then f else f + 1

/-- `round(x, 1)` on an exact rational. -/
def pyRound1 (x : ℚ) : ℚ := (roundHalfEven (x * 10) : ℚ) / 10

/-- A Python float that may be NaN (`Series.mean()` of an empty series). -/
inductive PyFloat where
  | num (q : ℚ)
  | nan
deriving DecidableEq, Repr

/-- `Series.mean()`: NaN on an empty series, the arithmetic mean otherwise. -/
def meanF (l : List ℚ) : PyFloat :=
  match l with
  | [] => .nan
  | _ => .num (l.sum / (l.length : ℚ))

/-- `round(x, 1)` lifted to possibly-NaN floats (`round(nan, 1)` is NaN). -/
def pyRound1F : PyFloat → PyFloat
  | .nan => .nan
  | .num q => .num (pyRound1 q)

/-! ### `/api/categories` and `/api/stats` -/

/-- The 400 error message of `get_categories`: `f'Level {level} not available'`. -/
def levelErrorMsg (level : ℕ) : String :=
  "Level " ++ toString level ++ " not available"

/-- `get_categories`: 400 when the level column is absent, otherwise the
per-category value counts sorted by count descending (`value_counts`
excludes NaN; the explicit `sorted(..., reverse=True)` is stable). -/
def get_categories (d : Dataset) (level : ℕ) :
    Except String (List (String × ℕ)) :=
  if d.levelPresent level then
    .ok (List.insertionSort countGE
      (counterOf (d.rows.filterMap (fun o => o.levelVal level))))
  else .error (levelErrorMsg level)

/-- `Series.nunique()`: number of distinct non-NaN values. -/
def nunique (vals : List (Option String)) : ℕ :=
  (vals.filterMap id).dedup.length

/-- The `/api/stats` payload. -/
structure Stats where
  total_jobs : ℕ
  unique_level_4_categories : ℕ
  sector_count : ℕ
  avg_auto_score : PyFloat
  avg_manual_score : PyFloat
deriving DecidableEq, Repr

/-- `get_stats`: whole-dataset statistics.  The source reads the
`level_4_name` column unconditionally (its presence is a precondition of the
route) and guards only the `Sector` column. -/
def get_stats (d : Dataset) : Stats :=
  { total_jobs := d.rows.length
    unique_level_4_categories := nunique (d.rows.map (fun o => o.levelVal 4))
    sector_count :=
      if d.sectorPresent then nunique (d.rows.map (fun o => o.sector)) else 0
    avg_auto_score := pyRound1F (meanF (d.rows.map (fun o => o.auto_score)))
    avg_manual_score :=
      pyRound1F (meanF (d.rows.map (fun o => o.manual_score))) }

/-! ### `/api/jobs` -/

/-- One serialized job dict: the two scores plus, for each level column
present in the DataFrame, that row's value. -/
structure JobDict where
  auto_score : ℚ
  manual_score : ℚ
  levels : ℕ → Option (Option String)

/-- `get_jobs`: filter, then serialize each row (the `if filtered_data.empty`
early return yields the same empty list the loop would). -/
def get_jobs (d : Dataset) (level : ℕ) (category : Option String) :
    List JobDict :=
  let fd := filterByCategory d level category
  fd.map (fun o =>
    { auto_score := o.auto_score
      manual_score := o.manual_score
      levels := fun i => if d.levelPresent i then some (o.levelVal i) else none })

/-! ### `/api/automation_matrix` -/

/-- All tasks pooled across a list of occupations (the source's
`all_tasks.extend(task_list)` loop over the parsed column). -/
def pooledTasks (occs : List Occupation) : List Task :=
  (occs.map (fun o => o.tasks)).flatten

/-- `tasks_df['automatability_flag'] == 'Automatable'` for one task (NaN for
a missing key, and NaN compares unequal). -/
def isAutomatable (t : Task) : Bool :=
  decide (t.automatability_flag = some "Automatable")

/-- `tasks_df['importance_classification'].str.lower() == 'primary'` (a
missing key gives NaN, `.str.lower()` keeps it NaN, and NaN compares
unequal). -/
def isPrimaryTask (t : Task) : Bool :=
  decide (t.importance_classification.map pyLower = some "primary")

/-- `(automatable_mask.sum() / total_tasks) * 100` as an exact rational. -/
def overallPct (ts : List Task) : ℚ :=
  (((ts.filter isAutomatable).length : ℚ) / (ts.length : ℚ)) * 100

/-- The pooled tasks whose classification lowers to `'primary'`. -/
def primaryTasksOf (ts : List Task) : List Task :=
  ts.filter isPrimaryTask

/-- The primary-task automation percentage; `0` when there are no primary
tasks, exactly as the source special-cases it. -/
def primaryPct (ts : List Task) : ℚ :=
  if (primaryTasksOf ts).length = 0 then 0
  else
    ((((primaryTasksOf ts).filter isAutomatable).length : ℚ) /
        ((primaryTasksOf ts).length : ℚ)) * 100

/-- The quadrant/color conditional chain of `get_automation_matrix`, in the
source's branch order. -/
def quadrantOf (overall primary : ℚ) : String × String :=
  if overall < 50 ∧ 50 ≤ primary then ("upper_left", "#8B5CF6")
  else if 50 ≤ overall ∧ 50 ≤ primary then ("upper_right", "#EF4444")
  else if overall < 50 ∧ primary < 50 then ("lower_left", "#10B981")
  else ("lower_right", "#F59E0B")

/-- One emitted matrix point. -/
structure MatrixPoint where
  category : String
  overall_automation_pct : ℚ
  primary_automation_pct : ℚ
  total_tasks : ℕ
  primary_tasks : ℕ
  total_jobs : ℕ
  quadrant : String
  color : String
deriving DecidableEq, Repr

/-- The body of the per-`level_4_name` group loop.  The three `continue`
guards of the source (`len(all_tasks_series) == 0`, `not all_tasks`,
`total_tasks == 0`) all collapse to the pooled list being empty, since the
parsed column never holds NaN and always holds lists. -/
def matrixPointFor (cat : String) (group : List Occupation) :
    Option MatrixPoint :=
  let ts := pooledTasks group
  if ts.isEmpty then none
  else
    let qc := quadrantOf (overallPct ts) (primaryPct ts)
    some
      { category := cat
        overall_automation_pct := pyRound1 (overallPct ts)
        primary_automation_pct := pyRound1 (primaryPct ts)
        total_tasks := ts.length
        primary_tasks := (primaryTasksOf ts).length
        total_jobs := group.length
        quadrant := qc.1
        color := qc.2 }

/-- The distinct non-NaN `level_4_name` keys, sorted ascending: pandas
`groupby` drops NaN keys and sorts group keys. -/
def level4Keys (occs : List Occupation) : List String :=
  List.insertionSort (fun a b => a ≤ b)
    (firstDedup (occs.filterMap (fun o => o.levelVal 4)))

/-- The rows of one `level_4_name` group. -/
def level4Group (occs : List Occupation) (k : String) : List Occupation :=
  occs.filter (fun o => decide (o.levelVal 4 = some k))

/-- `get_automation_matrix`: filter, group by `level_4_name`, emit one point
per group with a non-empty pooled task list. -/
def get_automation_matrix (d : Dataset) (level : ℕ) (category : Option String) :
    Except String (List MatrixPoint) :=
  let fd := filterByCategory d level category
  if fd.isEmpty then .ok []
  else
    .ok ((level4Keys fd).filterMap (fun k => matrixPointFor k (level4Group fd k)))

/-! ### `/api/task_analysis` -/

/-- The per-type breakdown entry of `automation_by_type`. -/
structure TypeStats where
  automatable : ℕ
  non_automatable : ℕ
  total : ℕ
  automation_percentage : ℚ
deriving DecidableEq, Repr

/-- The `/api/task_analysis` payload.  Key presence matters to the spec, so
`task_type_distribution` and `automation_by_type` are kept as association
lists in the order the source builds them, and `total_jobs` is `Option`
because the source's empty-case dict omits that key. -/
structure TaskAnalysis where
  total_tasks : ℕ
  total_jobs : Option ℕ
  automation_status : ℕ × ℕ
  task_type_distribution : List (String × ℕ)
  automation_by_type : List (String × TypeStats)
  automation_drivers : List (String × ℕ)
  automation_barriers : List (String × ℕ)
deriving DecidableEq, Repr

/-- The three recognized importance classifications, in the source's order. -/
def threeTypes : List String := ["primary", "secondary", "ancillary"]

/-- `task.get('importance_classification', 'Not specified').lower()`. -/
def taskTypeOf (t : Task) : String :=
  pyLower (t.importance_classification.getD "Not specified")

/-- `extract_questions_fast`: drop NaN question cells, keep non-empty lists,
flatten keeping only strings, clean each (`replace('_', ' ').title()`), and
count. -/
def extract_questions_fast (df : List Task) : List (String × ℕ) :=
  let validQuestions := df.filterMap (fun t =>
    match t.question with
    | .qlist es => if 0 < es.length then some es else none
    | _ => none)
  let allQuestions := validQuestions.flatten.filterMap (fun e =>
    match e with
    | .qstr s => some s
    | .qother => none)
  counterOf (allQuestions.map normalizeQuestion)

/-- The canonical zero payload returned when the pooled task list is empty.
Note it carries no `'other'` key and no `'total_jobs'` key. -/
def emptyTaskAnalysis : TaskAnalysis :=
  { total_tasks := 0
    total_jobs := none
    automation_status := (0, 0)
    task_type_distribution := [("primary", 0), ("secondary", 0), ("ancillary", 0)]
    automation_by_type := []
    automation_drivers := []
    automation_barriers := [] }

/-- The aggregation body of `get_task_analysis` over the filtered rows. -/
def taskAnalysisOf (fd : List Occupation) : TaskAnalysis :=
  let all_tasks := pooledTasks fd
  if all_tasks.isEmpty then emptyTaskAnalysis
  else
    let automatable_count := (all_tasks.filter isAutomatable).length
    let type_counts := counterOf (all_tasks.map taskTypeOf)
    let other_count :=
      sumCounts (type_counts.filter (fun kv => decide (kv.1 ∉ threeTypes)))
    let automation_by_type := threeTypes.filterMap (fun ty =>
      let type_tasks := all_tasks.filter (fun t =>
        decide (pyLower (t.importance_classification.getD "") = ty))
      if type_tasks.isEmpty then none
      else
        let automatable := (type_tasks.filter isAutomatable).length
        some (ty,
          { automatable := automatable
            non_automatable := type_tasks.length - automatable
            total := type_tasks.length
            automation_percentage :=
              if 0 < type_tasks.length then
                pyRound1 (((automatable : ℚ) / (type_tasks.length : ℚ)) * 100)
              else 0 }))
    let automatable_df := all_tasks.filter isAutomatable
    let non_automatable_df := all_tasks.filter (fun t => !isAutomatable t)
    { total_tasks := all_tasks.length
      total_jobs := some fd.length
      automation_status :=
        (automatable_count, all_tasks.length - automatable_count)
      task_type_distribution :=
        [("primary", getCount type_counts "primary"),
         ("secondary", getCount type_counts "secondary"),
         ("ancillary", getCount type_counts "ancillary"),
         ("other", other_count)]
      automation_by_type := automation_by_type
      automation_drivers := mostCommon 10 (extract_questions_fast automatable_df)
      automation_barriers :=
        mostCommon 10 (extract_questions_fast non_automatable_df) }

/-- `get_task_analysis`: filter, then aggregate. -/
def get_task_analysis (d : Dataset) (level : ℕ) (category : Option String) :
    Except String TaskAnalysis :=
  .ok (taskAnalysisOf (filterByCategory d level category))

/-! ### `/api/risk_distribution` -/

/-- The `/api/risk_distribution` payload. -/
structure RiskBuckets where
  low_risk : ℕ
  medium_risk : ℕ
  high_risk : ℕ
  total : ℕ
deriving DecidableEq, Repr

/-- The bucket counts over a row set, with the source's fixed 30/60
thresholds. -/
def riskBucketsOf (rows : List Occupation) : RiskBuckets :=
  { low_risk := (rows.filter (fun o => decide (o.auto_score < 30))).length
    medium_risk := (rows.filter (fun o =>
      decide (30 ≤ o.auto_score ∧ o.auto_score < 60))).length
    high_risk := (rows.filter (fun o => decide (60 ≤ o.auto_score))).length
    total := rows.length }

/-- `get_risk_distribution`: filter, then bucket. -/
def get_risk_distribution (d : Dataset) (level : ℕ) (category : Option String) :
    Except String RiskBuckets :=
  .ok (riskBucketsOf (filterByCategory d level category))

/-! ### Concrete instances used to exercise the theorems -/

/-- A task that is automatable and primary. -/
def taskAutoPrimary : Task := ⟨some "Automatable", some "Primary", .missing⟩

/-- A task that is not automatable and primary. -/
def taskNonAutoPrimary : Task := ⟨some "NotAutomatable", some "Primary", .missing⟩

/-- One occupation in level-4 category `"Legal"` whose two primary tasks are
half automatable: both percentages are exactly 50. -/
def occLegal : Occupation :=
  ⟨50, 50, fun i => if i = 4 then some "Legal" else none, none,
    [taskAutoPrimary, taskNonAutoPrimary]⟩

/-- The group fed to `matrixPointFor` in the boundary witness. -/
def groupLegal : List Occupation := [occLegal]

/-- A dataset whose only level column is `level_4_name`. -/
def dsLegal : Dataset := ⟨fun i => i == 4, false, groupLegal⟩

/-- A dataset with no level column at all and one low-score row. -/
def dsNoLevels : Dataset := ⟨fun _ => false, false, [⟨10, 10, fun _ => none, none, []⟩]⟩

/-- A dataset with level columns but no rows. -/
def dsNoRows : Dataset := ⟨fun _ => true, true, []⟩

/-- A raw workbook whose single kept row has a task cell that starts with a
list-opening token but fails to decode. -/
def rawBad : RawData :=
  ⟨fun _ => false, false,
    [⟨some 1, some 1, fun _ => none, none, .strval "[broken" none⟩]⟩

/-- A raw workbook with only benign task cells: one non-list-looking string
(undecodable, but never decoded), one missing cell, and one row dropped for a
non-numeric score. -/
def rawGood : RawData :=
  ⟨fun _ => false, false,
    [⟨some 1, some 1, fun _ => none, none, .strval "notalist" none⟩,
     ⟨some 2, some 2, fun _ => none, none, .missing⟩,
     ⟨none, some 3, fun _ => none, none, .strval "[alsobroken" none⟩]⟩

/-- Occupations present but with no tasks at all. -/
def occsNoTasks : List Occupation := [⟨1, 1, fun _ => none, none, []⟩]

/-- An occupation at the 30-score bucket boundary. -/
def occScore30 : Occupation := ⟨30, 0, fun _ => none, none, []⟩

/-- An occupation at the 60-score bucket boundary. -/
def occScore60 : Occupation := ⟨60, 0, fun _ => none, none, []⟩

/-- One automatable task carrying the driver-ranking example questions. -/
def taskDrivers : Task :=
  ⟨some "Automatable", some "Primary",
    .qlist [.qstr "years_experience", .qstr "years_experience",
            .qstr "physical_dexterity"]⟩

/-- The occupation list for the driver-ranking example. -/
def occsDrivers : List Occupation := [⟨10, 10, fun _ => none, none, [taskDrivers]⟩]

/-! ## Theorems -/

/-- C6: for every dataset and every valid taxonomy level, filtering with an
absent category is the identity — the same rows in the same order, with no
filtering applied. -/
theorem filter_absent_category_identity (d : Dataset) (level : ℕ)
    (_hvalid : d.levelPresent level = true) :
    filterByCategory d level none = d.rows := rfl

/-- Witness for C6 at a concrete dataset with `level_4_name` present. -/
theorem filter_absent_category_identity_witness :
    filterByCategory dsLegal 4 none = dsLegal.rows :=
  filter_absent_category_identity dsLegal 4 (by decide)

/-- C9: supplying the empty string as the category behaves exactly like an
absent category for every query operation that accepts a taxonomy filter —
the empty string is falsy, so the filter block is skipped and the whole
dataset is used. -/
theorem empty_category_behaves_like_absent (d : Dataset) (level : ℕ) :
    get_jobs d level (some "") = get_jobs d level none ∧
    get_automation_matrix d level (some "") = get_automation_matrix d level none ∧
    get_task_analysis d level (some "") = get_task_analysis d level none ∧
    get_risk_distribution d level (some "") = get_risk_distribution d level none :=
  ⟨rfl, rfl, rfl, rfl⟩

/-- C2 counterexample: with every level column absent and a category
supplied, `get_risk_distribution` does not report an error — it returns a
result computed over the whole unfiltered dataset (all 1 rows bucketed). -/
theorem invalid_level_not_reported_counterexample :
    get_risk_distribution dsNoLevels 1 (some "X") = .ok ⟨1, 0, 0, 1⟩ ∧
    dsNoLevels.levelPresent 1 = false := by
  constructor
  · rfl
  · rfl

/-- C2 as amended: `get_categories` does report the invalid level as an
error, but `get_automation_matrix`, `get_task_analysis` and
`get_risk_distribution` silently ignore the category filter when the level's
backing column is absent and compute over the unfiltered dataset. -/
theorem invalid_level_behavior (d : Dataset) (level : ℕ) (cat : Option String)
    (habsent : d.levelPresent level = false) (hcat : isTruthy cat = true) :
    get_categories d level = .error (levelErrorMsg level) ∧
    get_automation_matrix d level cat = get_automation_matrix d level none ∧
    get_task_analysis d level cat = get_task_analysis d level none ∧
    get_risk_distribution d level cat = get_risk_distribution d level none := by
  have hfc : filterByCategory d level cat = d.rows := by
    simp [filterByCategory, hcat, habsent]
  have hfn : filterByCategory d level none = d.rows := rfl
  refine ⟨?_, ?_, ?_, ?_⟩
  · simp [get_categories, habsent]
  · unfold get_automation_matrix
    rw [hfc, hfn]
  · unfold get_task_analysis
    rw [hfc, hfn]
  · unfold get_risk_distribution
    rw [hfc, hfn]

/-- Witness for the amended C2 at a concrete dataset with no level columns
and the category `"X"`. -/
theorem invalid_level_behavior_witness :
    get_categories dsNoLevels 1 = .error (levelErrorMsg 1) ∧
    get_automation_matrix dsNoLevels 1 (some "X")
      = get_automation_matrix dsNoLevels 1 none ∧
    get_task_analysis dsNoLevels 1 (some "X")
      = get_task_analysis dsNoLevels 1 none ∧
    get_risk_distribution dsNoLevels 1 (some "X")
      = get_risk_distribution dsNoLevels 1 none :=
  invalid_level_behavior dsNoLevels 1 (some "X") (by decide) (by decide)

/-- C8 counterexample: over an empty occupation set the reported average
auto-score is NaN (the mean of an empty series), which is neither `0` nor a
null. -/
theorem stats_empty_reports_nan_counterexample :
    (get_stats dsNoRows).avg_auto_score = PyFloat.nan ∧
    PyFloat.nan ≠ PyFloat.num 0 := by decide

/-- C8 as amended: on an empty occupation set `get_stats` does not crash —
both averages are computed and reported — but the value reported is NaN
(`Series.mean()` of an empty series rounded by `round(_, 1)`), not `0` and
not a null. -/
theorem stats_empty_dataset_nan (d : Dataset) (h : d.rows = []) :
    (get_stats d).avg_auto_score = PyFloat.nan ∧
    (get_stats d).avg_manual_score = PyFloat.nan := by
  simp [get_stats, h, meanF, pyRound1F]

/-- Witness for the amended C8 at a concrete empty dataset. -/
theorem stats_empty_dataset_nan_witness :
    (get_stats dsNoRows).avg_auto_score = PyFloat.nan ∧
    (get_stats dsNoRows).avg_manual_score = PyFloat.nan :=
  stats_empty_dataset_nan dsNoRows rfl

/-- C4 counterexample: the zero-filled payload returned for an empty pooled
task list has no `'other'` key in `task_type_distribution` (the non-empty
branch does emit one). -/
theorem task_analysis_empty_no_other_key_counterexample :
    (taskAnalysisOf []).task_type_distribution
      = [("primary", 0), ("secondary", 0), ("ancillary", 0)] ∧
    "other" ∉ (taskAnalysisOf []).task_type_distribution.map Prod.fst := by
  decide

/-- C4 as amended: on an empty pooled task list `taskAnalysisOf` returns the
canonical zero-filled shape — zero totals, zero automation status, a
`task_type_distribution` with `primary`/`secondary`/`ancillary` all zero (but
no `other` key), an empty by-type map and empty driver/barrier lists. -/
theorem task_analysis_empty_shape (occs : List Occupation)
    (h : pooledTasks occs = []) :
    (taskAnalysisOf occs).total_tasks = 0 ∧
    (taskAnalysisOf occs).automation_status = (0, 0) ∧
    (taskAnalysisOf occs).task_type_distribution
      = [("primary", 0), ("secondary", 0), ("ancillary", 0)] ∧
    (taskAnalysisOf occs).automation_by_type = [] ∧
    (taskAnalysisOf occs).automation_drivers = [] ∧
    (taskAnalysisOf occs).automation_barriers = [] := by
  simp [taskAnalysisOf, h, emptyTaskAnalysis]

/-- The three risk filters split every row set exactly: each row lands in
exactly one bucket by trichotomy on its score. -/
theorem risk_filters_partition (rows : List Occupation) :
    (rows.filter (fun o => decide (o.auto_score < 30))).length
      + (rows.filter (fun o =>
          decide (30 ≤ o.auto_score ∧ o.auto_score < 60))).length
      + (rows.filter (fun o => decide (60 ≤ o.auto_score))).length
      = rows.length := by
  induction rows with
  | nil => rfl
  | cons o t ih =>
      simp only [List.filter_cons, decide_eq_true_eq, List.length_cons]
      by_cases h1 : o.auto_score < 30
      · have h2 : ¬(30 ≤ o.auto_score ∧ o.auto_score < 60) := by
          rintro ⟨hle, _⟩; linarith
        have h3 : ¬(60 ≤ o.auto_score) := by intro hle; linarith
        simp only [if_pos h1, if_neg h2, if_neg h3, List.length_cons]
        omega
      · by_cases h2 : o.auto_score < 60
        · have h2' : 30 ≤ o.auto_score ∧ o.auto_score < 60 :=
            ⟨le_of_not_lt h1, h2⟩
          have h3 : ¬(60 ≤ o.auto_score) := by intro hle; linarith
          simp only [if_neg h1, if_pos h2', if_neg h3, List.length_cons]
          omega
        · have h3 : 60 ≤ o.auto_score := le_of_not_lt h2
          have h2' : ¬(30 ≤ o.auto_score ∧ o.auto_score < 60) := by
            rintro ⟨_, hlt⟩; exact h2 hlt
          simp only [if_neg h1, if_neg h2', if_pos h3, List.length_cons]
          omega

/-- C5: `riskBucketsOf` partitions every occupation set exhaustively and
disjointly — the three buckets sum to the total — and the boundaries land as
the fixed constants dictate: a score of exactly 30 counts as medium risk and
a score of exactly 60 as high risk. -/
theorem risk_buckets_exhaustive :
    (∀ rows : List Occupation,
        (riskBucketsOf rows).low_risk + (riskBucketsOf rows).medium_risk
          + (riskBucketsOf rows).high_risk = (riskBucketsOf rows).total) ∧
    (∀ o : Occupation, o.auto_score = 30 → riskBucketsOf [o] = ⟨0, 1, 0, 1⟩) ∧
    (∀ o : Occupation, o.auto_score = 60 → riskBucketsOf [o] = ⟨0, 0, 1, 1⟩) := by
  refine ⟨fun rows => risk_filters_partition rows, fun o h => ?_, fun o h => ?_⟩
  · simp [riskBucketsOf, List.filter_cons, h]
    norm_num
  · simp [riskBucketsOf, List.filter_cons, h]
    norm_num

/-- Witness for C5 at the two boundary scores. -/
theorem risk_buckets_exhaustive_witness :
    riskBucketsOf [occScore30] = ⟨0, 1, 0, 1⟩ ∧
    riskBucketsOf [occScore60] = ⟨0, 0, 1, 1⟩ :=
  ⟨risk_buckets_exhaustive.2.1 occScore30 rfl,
   risk_buckets_exhaustive.2.2 occScore60 rfl⟩

/-- Running the task parse over a row list succeeds exactly when no row's
task cell raises a decode error. -/
theorem traverseRows_isSome (rows : List RawRow) :
    (traverseRows rows).isSome = true ↔
      ∀ r ∈ rows, decodeFails r.task_field = false := by
  induction rows with
  | nil => simp [traverseRows]
  | cons r rs ih =>
      cases hpf : parseTaskField r.task_field with
      | error e =>
          have hdf : decodeFails r.task_field = true := by
            unfold decodeFails; rw [hpf]
          simp [traverseRows, hpf, hdf]
      | ok ts =>
          have hdf : decodeFails r.task_field = false := by
            unfold decodeFails; rw [hpf]
          simp [traverseRows, hpf, hdf, ih]

/-- C3 counterexample: a dataset whose single kept row's task cell starts
with a list-opening token but fails to decode makes the whole load fail —
the raised `JSONDecodeError` escapes to `load_job_data`'s `except` handler,
which returns `False`. -/
theorem load_malformed_fails_counterexample :
    looksLikeList "[broken" = true ∧
    (load_job_data rawBad).isSome = false := by decide

/-- C3 as amended: a task cell that is missing, non-string, or does not start
with a list-opening token after trimming parses to the empty task list and
never fails the load (the load succeeds precisely when no kept row's cell
both looks like a list and fails decoding); but a cell that does start with
a list-opening token and fails decoding aborts the whole load. -/
theorem load_malformed_row_behavior :
    (∀ raw : RawData,
        (load_job_data raw).isSome = true ↔
          ∀ r ∈ raw.rows.filter keepRow, decodeFails r.task_field = false) ∧
    (∀ (text : String) (decoded : Option (List Task)),
        looksLikeList text = false →
          parseTaskField (.strval text decoded) = .ok []) ∧
    parseTaskField .missing = .ok [] ∧
    parseTaskField .nonstring = .ok [] := by
  refine ⟨fun raw => ?_, fun text decoded h => ?_, rfl, rfl⟩
  · rw [← traverseRows_isSome]
    unfold load_job_data
    cases htr : traverseRows (raw.rows.filter keepRow) <;> simp [htr]
  · simp [parseTaskField, h]

/-- Witness for the amended C3: a workbook whose kept rows carry a
non-list-looking (undecodable) string cell and a missing cell loads
successfully. -/
theorem load_malformed_row_behavior_witness :
    (load_job_data rawGood).isSome = true :=
  (load_malformed_row_behavior.1 rawGood).mpr (by decide)

/-- C1: every emitted matrix point is classified with thresholds exactly at
50, boundary inclusive on the `≥ 50` side, against the overall and
primary automation percentages computed for its category: both exactly 50
gives `upper_right`; overall below 50 with primary at least 50 gives
`upper_left`; both below 50 gives `lower_left`; overall at least 50 with
primary below 50 gives `lower_right`. -/
theorem automation_matrix_quadrant_thresholds (cat : String)
    (group : List Occupation) (p : MatrixPoint)
    (hp : matrixPointFor cat group = some p) :
    (overallPct (pooledTasks group) = 50 ∧ primaryPct (pooledTasks group) = 50
        → p.quadrant = "upper_right") ∧
    (overallPct (pooledTasks group) < 50 ∧ 50 ≤ primaryPct (pooledTasks group)
        → p.quadrant = "upper_left") ∧
    (overallPct (pooledTasks group) < 50 ∧ primaryPct (pooledTasks group) < 50
        → p.quadrant = "lower_left") ∧
    (50 ≤ overallPct (pooledTasks group) ∧ primaryPct (pooledTasks group) < 50
        → p.quadrant = "lower_right") := by
  unfold matrixPointFor at hp
  by_cases he : (pooledTasks group).isEmpty
  · simp [he] at hp
  · simp only [he, Bool.false_eq_true, if_false] at hp
    have hq : p.quadrant
        = (quadrantOf (overallPct (pooledTasks group))
            (primaryPct (pooledTasks group))).1 :=
      congrArg MatrixPoint.quadrant (Option.some.inj hp).symm
    refine ⟨?_, ?_, ?_, ?_⟩ <;> rintro ⟨h1, h2⟩ <;> rw [hq] <;> unfold quadrantOf
    · rw [if_neg (by rintro ⟨hlt, _⟩; linarith),
        if_pos ⟨by linarith, by linarith⟩]
    · rw [if_pos ⟨h1, h2⟩]
    · rw [if_neg (by rintro ⟨_, hge⟩; linarith),
        if_neg (by rintro ⟨hge, _⟩; linarith), if_pos ⟨h1, h2⟩]
    · rw [if_neg (by rintro ⟨hlt, _⟩; linarith),
        if_neg (by rintro ⟨_, hge⟩; linarith),
        if_neg (by rintro ⟨hlt, _⟩; linarith)]

/-- Membership in the first-occurrence deduplication is plain membership. -/
theorem mem_firstDedup {l : List String} {x : String} :
    x ∈ firstDedup l ↔ x ∈ l := by
  induction l with
  | nil => simp [firstDedup]
  | cons a t ih =>
      simp only [firstDedup, List.mem_cons, List.mem_filter,
        decide_eq_true_eq, ih]
      constructor
      · rintro (rfl | ⟨hx, _⟩)
        · exact Or.inl rfl
        · exact Or.inr hx
      · rintro (rfl | hx)
        · exact Or.inl rfl
        · by_cases hxa : x = a
          · exact Or.inl hxa
          · exact Or.inr ⟨hx, hxa⟩

/-- The first-occurrence deduplication has no duplicates. -/
theorem nodup_firstDedup (l : List String) : (firstDedup l).Nodup := by
  induction l with
  | nil => simp [firstDedup]
  | cons a t ih =>
      rw [firstDedup, List.nodup_cons]
      refine ⟨fun hmem => ?_, ih.filter _⟩
      rw [List.mem_filter] at hmem
      simp at hmem

/-- `find?` for a key present in a list locates that key. -/
theorem find?_key_of_mem {k : String} :
    ∀ {ks : List String}, k ∈ ks →
      ks.find? (fun x => decide (x = k)) = some k := by
  intro ks
  induction ks with
  | nil => intro h; cases h
  | cons a t ih =>
      intro h
      by_cases hak : a = k
      · subst hak
        simp [List.find?]
      · have hkt : k ∈ t := by
          rcases List.mem_cons.mp h with h1 | h1
          · exact absurd h1.symm hak
          · exact h1
        simp [List.find?, hak, ih hkt]

/-- `find?` for a key absent from a list finds nothing. -/
theorem find?_key_of_not_mem {k : String} :
    ∀ {ks : List String}, k ∉ ks →
      ks.find? (fun x => decide (x = k)) = none := by
  intro ks
  induction ks with
  | nil => intro _; rfl
  | cons a t ih =>
      intro h
      have hak : ¬(a = k) := fun hw => h (hw ▸ List.mem_cons_self a t)
      have hkt : k ∉ t := fun hw => h (List.mem_cons_of_mem a hw)
      simp [List.find?, hak, ih hkt]

/-- The Counter lookup returns the plain occurrence count. -/
theorem getCount_counterOf (l : List String) (k : String) :
    getCount (counterOf l) k = l.count k := by
  unfold getCount counterOf
  rw [List.find?_map]
  have hcomp : ((fun kv : String × ℕ => decide (kv.1 = k))
      ∘ fun k' => (k', l.count k')) = fun x => decide (x = k) := rfl
  rw [hcomp]
  by_cases hk : k ∈ l
  · rw [find?_key_of_mem (mem_firstDedup.mpr hk)]
    rfl
  · rw [find?_key_of_not_mem (fun hm => hk (mem_firstDedup.mp hm))]
    simp [List.count_eq_zero.mpr hk]

/-- Filtering on membership in `k :: ks` counts `k`'s occurrences plus the
occurrences of the remaining keys, provided `k` is not among them. -/
theorem length_filter_mem_cons (l : List String) (k : String) (ks : List String)
    (hk : k ∉ ks) :
    (l.filter (fun x => decide (x ∈ k :: ks))).length
      = l.count k + (l.filter (fun x => decide (x ∈ ks))).length := by
  induction l with
  | nil => simp
  | cons a t ih =>
      simp only [List.filter_cons, List.count_cons]
      by_cases h1 : a = k
      · subst h1
        have hpa : decide (a ∈ a :: ks) = true := by simp
        have hqa : ¬(decide (a ∈ ks) = true) := by simp [hk]
        rw [if_pos hpa, if_neg hqa]
        simp only [List.length_cons, beq_self_eq_true, if_true, ih]
        omega
      · have hcount : (a == k) = false := by
          simp [h1]
        by_cases h2 : a ∈ ks
        · have hpa : decide (a ∈ k :: ks) = true := by
            simp [List.mem_cons_of_mem, h2]
          have hqa : decide (a ∈ ks) = true := by simp [h2]
          rw [if_pos hpa, if_pos hqa]
          simp only [List.length_cons, hcount, Bool.false_eq_true, if_false, ih]
          omega
        · have hpa : ¬(decide (a ∈ k :: ks) = true) := by
            simp only [decide_eq_true_eq, List.mem_cons]
            rintro (rfl | hw)
            · exact h1 rfl
            · exact h2 hw
          have hqa : ¬(decide (a ∈ ks) = true) := by simp [h2]
          rw [if_neg hpa, if_neg hqa]
          simp only [hcount, Bool.false_eq_true, if_false, ih]
          omega

/-- Summing the occurrence counts of distinct keys counts the elements lying
in the key set. -/
theorem sum_count_eq_length_filter_mem (l : List String) :
    ∀ ks : List String, ks.Nodup →
      (ks.map (fun k => l.count k)).sum
        = (l.filter (fun x => decide (x ∈ ks))).length := by
  intro ks
  induction ks with
  | nil => intro _; simp
  | cons k t ih =>
      intro hnd
      rw [List.nodup_cons] at hnd
      simp only [List.map_cons, List.sum_cons]
      rw [ih hnd.2, length_filter_mem_cons l k t hnd.1]

/-- Summing a key-filtered slice of the Counter counts the elements whose
key satisfies the predicate. -/
theorem sumCounts_counterOf_filter (l : List String) (q : String → Bool) :
    sumCounts ((counterOf l).filter (fun kv => q kv.1))
      = (l.filter q).length := by
  unfold sumCounts counterOf
  rw [List.filter_map, List.map_map]
  have hcomp1 : ((fun kv : String × ℕ => q kv.1)
      ∘ fun k => (k, l.count k)) = q := rfl
  have hcomp2 : ((fun kv : String × ℕ => kv.2)
      ∘ fun k => (k, l.count k)) = fun k => l.count k := rfl
  rw [hcomp1, hcomp2]
  rw [sum_count_eq_length_filter_mem l _ ((nodup_firstDedup l).filter _)]
  apply congrArg List.length
  apply List.filter_congr
  intro x hx
  cases hq : q x with
  | false =>
      simp [List.mem_filter, hq]
  | true =>
      simp [List.mem_filter, mem_firstDedup, hx, hq]

/-- Every element is counted exactly once across the three recognized type
keys and the leftover filter. -/
theorem count_threeTypes_split (l : List String) :
    l.count "primary" + l.count "secondary" + l.count "ancillary"
      + (l.filter (fun x => decide (x ∉ threeTypes))).length = l.length := by
  have hnd : threeTypes.Nodup := by decide
  have h1 := sum_count_eq_length_filter_mem l threeTypes hnd
  have h2 := List.length_eq_length_filter_add
    (l := l) (fun x => decide (x ∈ threeTypes))
  simp only [← decide_not] at h2
  simp only [threeTypes, List.map_cons, List.map_nil, List.sum_cons,
    List.sum_nil] at h1 h2 ⊢
  omega

/-- Witness for C1: a category whose pooled tasks give exactly 50 percent
overall and 50 percent primary automation is emitted as `upper_right`. -/
theorem automation_matrix_quadrant_thresholds_witness :
    (matrixPointFor "Legal" groupLegal).map MatrixPoint.quadrant
      = some "upper_right" := by
  have h50o : overallPct (pooledTasks groupLegal) = 50 := by
    have e1 : ((pooledTasks groupLegal).filter isAutomatable).length = 1 := by
      decide
    have e2 : (pooledTasks groupLegal).length = 2 := by decide
    unfold overallPct
    rw [e1, e2]
    norm_num
  have h50p : primaryPct (pooledTasks groupLegal) = 50 := by
    have e1 :
        ((primaryTasksOf (pooledTasks groupLegal)).filter isAutomatable).length
          = 1 := by decide
    have e2 : (primaryTasksOf (pooledTasks groupLegal)).length = 2 := by decide
    unfold primaryPct
    rw [e1, e2]
    norm_num
  cases hP : matrixPointFor "Legal" groupLegal with
  | none =>
      have hs : (matrixPointFor "Legal" groupLegal).isSome = true := rfl
      rw [hP] at hs
      cases hs
  | some p =>
      have hq :=
        (automation_matrix_quadrant_thresholds "Legal" groupLegal p hP).1
          ⟨h50o, h50p⟩
      simp [hq]

/-- Witness for the amended C4: occupations exist but carry no tasks. -/
theorem task_analysis_empty_shape_witness :
    (taskAnalysisOf occsNoTasks).total_tasks = 0 ∧
    (taskAnalysisOf occsNoTasks).automation_status = (0, 0) ∧
    (taskAnalysisOf occsNoTasks).task_type_distribution
      = [("primary", 0), ("secondary", 0), ("ancillary", 0)] ∧
    (taskAnalysisOf occsNoTasks).automation_by_type = [] ∧
    (taskAnalysisOf occsNoTasks).automation_drivers = [] ∧
    (taskAnalysisOf occsNoTasks).automation_barriers = [] :=
  task_analysis_empty_shape occsNoTasks (by decide)


/-- The `other` slice of the Counter sums to the number of tasks whose type
is outside the three recognized keys. -/
theorem sumCounts_counterOf_notThree (l : List String) :
    sumCounts ((counterOf l).filter (fun kv => decide (kv.1 ∉ threeTypes)))
      = (l.filter (fun x => decide (x ∉ threeTypes))).length :=
  sumCounts_counterOf_filter l (fun x => decide (x ∉ threeTypes))

/-- `mostCommon` output is sorted by count descending. -/
theorem pairwise_mostCommon (n : ℕ) (c : List (String × ℕ)) :
    (mostCommon n c).Pairwise countGE :=
  List.Pairwise.sublist (List.take_sublist n _)
    (List.sorted_insertionSort countGE c)

/-- `mostCommon n` returns at most `n` entries. -/
theorem length_mostCommon_le (n : ℕ) (c : List (String × ℕ)) :
    (mostCommon n c).length ≤ n := by
  unfold mostCommon
  rw [List.length_take]
  exact min_le_left _ _

/-- C7: driver and barrier tables rank normalized question frequencies —
the emitted lists are ordered by count descending and hold at most 10
entries; and on the concrete example (questions `years_experience`,
`years_experience`, `physical_dexterity`, all on automatable tasks) the top
driver entry is `("Years Experience", 2)` — underscores replaced by spaces,
title-cased, counted. -/
theorem task_analysis_drivers_ranked :
    (∀ occs : List Occupation,
        (taskAnalysisOf occs).automation_drivers.Pairwise countGE ∧
        (taskAnalysisOf occs).automation_drivers.length ≤ 10 ∧
        (taskAnalysisOf occs).automation_barriers.Pairwise countGE ∧
        (taskAnalysisOf occs).automation_barriers.length ≤ 10) ∧
    (taskAnalysisOf occsDrivers).automation_drivers.head?
      = some ("Years Experience", 2) := by
  constructor
  · intro occs
    by_cases he : (pooledTasks occs).isEmpty
    · simp [taskAnalysisOf, he, emptyTaskAnalysis]
    · simp only [taskAnalysisOf, he, Bool.false_eq_true, if_false]
      exact ⟨pairwise_mostCommon _ _, length_mostCommon_le _ _,
        pairwise_mostCommon _ _, length_mostCommon_le _ _⟩
  · decide

/-- C10: on a non-empty pooled task list, `automatable + non_automatable`
equals `total_tasks`, where `non_automatable` counts exactly the tasks whose
flag differs from `'Automatable'` (a missing flag included), and the four
`task_type_distribution` entries (`primary`, `secondary`, `ancillary`,
`other`) sum to `total_tasks` as well. -/
theorem task_analysis_counts_invariant (occs : List Occupation)
    (h : pooledTasks occs ≠ []) :
    (taskAnalysisOf occs).automation_status.1
        + (taskAnalysisOf occs).automation_status.2
      = (taskAnalysisOf occs).total_tasks ∧
    (taskAnalysisOf occs).automation_status.2
      = ((pooledTasks occs).filter
          (fun t => decide (t.automatability_flag ≠ some "Automatable"))).length ∧
    sumCounts (taskAnalysisOf occs).task_type_distribution
      = (taskAnalysisOf occs).total_tasks := by
  have he : (pooledTasks occs).isEmpty = false := by
    cases hE : (pooledTasks occs).isEmpty with
    | false => rfl
    | true => exact absurd (List.isEmpty_iff.mp hE) h
  simp only [taskAnalysisOf, he, Bool.false_eq_true, if_false]
  refine ⟨?_, ?_, ?_⟩
  · have hle := List.length_filter_le isAutomatable (pooledTasks occs)
    omega
  · have hsplit := List.length_eq_length_filter_add
      (l := pooledTasks occs) isAutomatable
    have hpred : (fun t => !(isAutomatable t))
        = (fun t : Task =>
            decide (t.automatability_flag ≠ some "Automatable")) := by
      funext t
      unfold isAutomatable
      rw [← decide_not]
    rw [← hpred]
    omega
  · rw [getCount_counterOf, getCount_counterOf, getCount_counterOf]
    rw [sumCounts_counterOf_notThree]
    have hsplit := count_threeTypes_split ((pooledTasks occs).map taskTypeOf)
    have hlen : ((pooledTasks occs).map taskTypeOf).length
        = (pooledTasks occs).length := List.length_map _ _
    simp only [sumCounts, List.map_cons, List.map_nil, List.sum_cons,
      List.sum_nil]
    omega

/-- Witness for C10: one occupation with one automatable primary task. -/
theorem task_analysis_counts_invariant_witness :
    (taskAnalysisOf occsDrivers).automation_status.1
        + (taskAnalysisOf occsDrivers).automation_status.2
      = (taskAnalysisOf occsDrivers).total_tasks ∧
    (taskAnalysisOf occsDrivers).automation_status.2
      = ((pooledTasks occsDrivers).filter
          (fun t => decide (t.automatability_flag ≠ some "Automatable"))).length ∧
    sumCounts (taskAnalysisOf occsDrivers).task_type_distribution
      = (taskAnalysisOf occsDrivers).total_tasks :=
  task_analysis_counts_invariant occsDrivers (by decide)

end JobMarket
